import Mathlib

/-!
Verification of the contact-manager core of `src/dz11.py`: the
`Field`/`Name`/`Phone` validation hierarchy, `Record` phone/birthday
operations, and the `AddressBook` collection with paginated listing.

Python objects are shallowly embedded: a constructed field object is its
stored `_value` string, exceptions become `Except` errors, the phone set
becomes a duplicate-free list in iteration order, and `date.today()` is
passed in as an explicit parameter.
-/

namespace DZ

/-- A Python value handed to a `Field` constructor: the code only
distinguishes strings from everything else (`isinstance(value, str)`),
so non-string inputs are represented by an integer and a `None` case. -/
inductive PyVal where
  | str : String → PyVal
  | intv : Int → PyVal
  | noneV : PyVal
deriving DecidableEq

/-- The exceptions the embedded code can raise. -/
inductive PyError where
  | valueError : PyError
  | attributeError : PyError
deriving DecidableEq

def PyVal.isStr : PyVal → Bool
  | .str _ => true
  | _ => false

instance {ε α : Type} [DecidableEq ε] [DecidableEq α] :
    DecidableEq (Except ε α) := fun a b =>
  match a, b with
  | .error x, .error y =>
    if h : x = y then .isTrue (by rw [h])
    else .isFalse (by intro hc; cases hc; exact h rfl)
  | .ok x, .ok y =>
    if h : x = y then .isTrue (by rw [h])
    else .isFalse (by intro hc; cases hc; exact h rfl)
  | .error _, .ok _ => .isFalse (by intro hc; cases hc)
  | .ok _, .error _ => .isFalse (by intro hc; cases hc)

/-- `Field.__init__` (src/dz11.py lines 8-11): rejects non-string values
with `ValueError`, otherwise stores the string in the `_value` attribute.
The result is the stored `_value`. -/
def Field.construct (v : PyVal) : Except PyError String :=
  match v with
  | .str s => .ok s
  | _ => .error .valueError

/-- `Field.set_value` (lines 22-25): the same string check as
`Field.__init__`; the exception is raised before the assignment, so on
failure the prior `_value` is kept. Returns the resulting stored value
paired with the exception, if any. -/
def Field.set_value (cur : String) (v : PyVal) : String × Option PyError :=
  match v with
  | .str s => (s, none)
  | _ => (cur, some .valueError)

/-- `Field.__str__` (lines 13-14): the stored value itself. -/
def Field.as_string (stored : String) : String := stored

/-- `Name` (lines 28-29) is `class Name(Field): pass` - it adds no check
of its own, so constructing a `Name` is exactly `Field.__init__`. -/
def Name.construct (v : PyVal) : Except PyError String := Field.construct v

/-- Python `str.isdigit` on the strings this program handles: true iff
the string is non-empty and every character is a decimal digit. -/
def strIsdigit (s : String) : Bool :=
  !s.toList.isEmpty && s.toList.all Char.isDigit

/-- `Phone.__init__` (lines 33-36): `Field.__init__` first (string check,
stores `_value`), then `ValueError` unless `value.isdigit()`. -/
def Phone.construct (v : PyVal) : Except PyError String :=
  match Field.construct v with
  | .error e => .error e
  | .ok s => if strIsdigit s then .ok s else .error .valueError

/-- `Phone` defines no `set_value` override (its class body is only
`__init__` and `__eq__`, lines 31-41), so a `Phone` mutates through the
inherited `Field.set_value` unchanged - no digit re-check. -/
def Phone.set_value (cur : String) (v : PyVal) : String × Option PyError :=
  Field.set_value cur v

/-- Names bound by the `Field` class body (lines 6-25). -/
def fieldClassAttrs : List String :=
  ["__init__", "__str__", "__repr__", "get_value", "set_value"]

/-- Names bound by the `Name` class body (lines 28-29): `pass`, nothing. -/
def nameClassAttrs : List String := []

/-- Names bound by the `Phone` class body (lines 31-41). -/
def phoneClassAttrs : List String := ["__init__", "__eq__"]

/-- Instance attributes set by `Field.__init__` (line 11). -/
def fieldInstanceAttrs : List String := ["_value"]

/-- Whether attribute lookup on a `Name` object finds `a`: the instance
dict, then the `Name` class dict, then the `Field` class dict. -/
def nameHasAttr (a : String) : Bool :=
  (fieldInstanceAttrs ++ nameClassAttrs ++ fieldClassAttrs).contains a

/-- Whether attribute lookup on a `Phone` object finds `a`. -/
def phoneHasAttr (a : String) : Bool :=
  (fieldInstanceAttrs ++ phoneClassAttrs ++ fieldClassAttrs).contains a

/-- A constructed `Name` object, identified by its stored `_value`. -/
structure NameObj where
  stored : String
deriving DecidableEq

/-- A constructed `Phone` object, identified by its stored `_value`. -/
structure PhoneObj where
  stored : String
deriving DecidableEq

/-- The attribute access `name.value` on a `Name` object: `value` is in
neither the instance dict nor the `Name`/`Field` class dicts, so Python
raises `AttributeError`; were the attribute present it would yield the
stored string. -/
def NameObj.getattrValue (n : NameObj) : Except PyError String :=
  if nameHasAttr "value" then .ok n.stored else .error .attributeError

/-- The attribute access `phone.value` on a `Phone` object. -/
def PhoneObj.getattrValue (p : PhoneObj) : Except PyError String :=
  if phoneHasAttr "value" then .ok p.stored else .error .attributeError

/-- A Python `datetime.date`: year, month, day. -/
structure DateS where
  year : Nat
  month : Nat
  day : Nat
deriving DecidableEq

/-- The Gregorian leap-year rule used by Python `datetime`. -/
def isLeapYear (y : Nat) : Bool := (y % 4 == 0 && y % 100 != 0) || y % 400 == 0

/-- Length of month `m` in a year whose leap flag is `leap`. -/
def monthLength (leap : Bool) (m : Nat) : Nat :=
  match m with
  | 1 => 31
  | 2 => if leap then 29 else 28
  | 3 => 31
  | 4 => 30
  | 5 => 31
  | 6 => 30
  | 7 => 31
  | 8 => 31
  | 9 => 30
  | 10 => 31
  | 11 => 30
  | 12 => 31
  | _ => 0

/-- The arguments `date(y, m, d)` accepts (Python: `MINYEAR = 1`,
`MAXYEAR = 9999`, month in range, day within the month). -/
def DateS.validB (a : DateS) : Bool :=
  decide (1 ≤ a.year ∧ a.year ≤ 9999 ∧ 1 ≤ a.month ∧ a.month ≤ 12 ∧
    1 ≤ a.day ∧ a.day ≤ monthLength (isLeapYear a.year) a.month)

/-- The `date(y, m, d)` constructor: `ValueError` on out-of-range input. -/
def dateMk (y m d : Nat) : Except PyError DateS :=
  if DateS.validB ⟨y, m, d⟩ then .ok ⟨y, m, d⟩ else .error .valueError

/-- Python tuple-style date comparison `a < b`. -/
def lexLt (a b : DateS) : Prop :=
  a.year < b.year ∨ (a.year = b.year ∧
    (a.month < b.month ∨ (a.month = b.month ∧ a.day < b.day)))

instance (a b : DateS) : Decidable (lexLt a b) := by
  unfold lexLt
  infer_instance

/-- The boolean date comparison the code branches on (line 64). -/
def DateS.lt (a b : DateS) : Bool := decide (lexLt a b)

/-- Days in the months strictly before month `m` of a non-leap year. -/
def cumMonth (m : Nat) : Nat :=
  match m with
  | 1 => 0
  | 2 => 31
  | 3 => 59
  | 4 => 90
  | 5 => 120
  | 6 => 151
  | 7 => 181
  | 8 => 212
  | 9 => 243
  | 10 => 273
  | 11 => 304
  | 12 => 334
  | _ => 0

/-- Day-of-year of `(m, d)` in a year with leap flag `leap`. -/
def dayOfYear (leap : Bool) (m d : Nat) : Nat :=
  cumMonth m + (if leap && decide (2 < m) then 1 else 0) + d

/-- Days before January 1 of year `y`, counting from year 1. -/
def daysBeforeYear (y : Nat) : Nat :=
  365 * (y - 1) + (y - 1) / 4 + (y - 1) / 400 - (y - 1) / 100

/-- Proleptic-Gregorian ordinal of a date, as Python `date.toordinal`;
the difference of two ordinals is `(a - b).days`. -/
def DateS.toordinal (a : DateS) : Nat :=
  daysBeforeYear a.year + dayOfYear (isLeapYear a.year) a.month a.day

/-- `Record.days_to_birthday` (lines 59-66), with the current date
`date.today()` passed explicitly and the stored birthday (a parsed date
or `None`) as set up by `Record.__init__`. -/
def days_to_birthday (today : DateS) (birthday : Option DateS) :
    Except PyError (Option Int) :=
  match birthday with
  | none => .ok none
  | some b =>
    match dateMk today.year b.month b.day with
    | .error e => .error e
    | .ok nextB =>
      if DateS.lt nextB today then
        match dateMk (today.year + 1) b.month b.day with
        | .error e => .error e
        | .ok nb2 => .ok (some ((nb2.toordinal : Int) - (today.toordinal : Int)))
      else .ok (some ((nextB.toordinal : Int) - (today.toordinal : Int)))

/-- A `Record` as the code leaves it: the `Name` object, the phone set
(a duplicate-free list in iteration order), the stored birthday. -/
structure RecordS where
  name : NameObj
  phones : List String
  birthday : Option DateS
deriving DecidableEq

/-- Python `set.add`: a no-op when the element is already present. -/
def setAdd (xs : List String) (x : String) : List String :=
  if xs.contains x then xs else xs ++ [x]

/-- The birthday part of `Record.__init__` (lines 48-57): the `Birthday`
object's `value` property yields the ISO string of its parsed date, so
re-parsing recovers that date; the year must lie in `[1900, today.year]`
or a `ValueError` is raised. -/
def recordBirthday (today : DateS) (b : Option DateS) :
    Except PyError (Option DateS) :=
  match b with
  | none => .ok none
  | some bd =>
    if bd.year < 1900 || today.year < bd.year then .error .valueError
    else .ok (some bd)

/-- `Record.__init__` (lines 45-57): with an initial phone, line 47
evaluates `phone.value` to build the phone set before the birthday is
examined. -/
def Record.init (today : DateS) (name : NameObj) (phone : Option PhoneObj)
    (birthday : Option DateS) : Except PyError RecordS :=
  match phone with
  | none =>
    match recordBirthday today birthday with
    | .error e => .error e
    | .ok bd => .ok ⟨name, [], bd⟩
  | some p =>
    match PhoneObj.getattrValue p with
    | .error e => .error e
    | .ok v =>
      match recordBirthday today birthday with
      | .error e => .error e
      | .ok bd => .ok ⟨name, [v], bd⟩

/-- `Record.add_phone` (lines 69-73): builds a `Phone` from the string
(the digit check may raise), then reads `phone_number.value` to insert
into the set, then returns the confirmation message. -/
def Record.add_phone (r : RecordS) (raw : String) :
    Except PyError (RecordS × String) :=
  match Phone.construct (.str raw) with
  | .error e => .error e
  | .ok stored =>
    match PhoneObj.getattrValue ⟨stored⟩ with
    | .error e => .error e
    | .ok v =>
      .ok ({ r with phones := setAdd r.phones v },
        "Contact with name: " ++ r.name.stored ++ " is added!")

/-- `Record.edit_phone` (lines 81-87): the `for` body returns on its
first iteration in both branches (the not-found return sits inside the
loop body), and the matching branch only adds the new number - it never
removes the old one. An empty phone set falls through to Python's
implicit `None`. -/
def Record.edit_phone (r : RecordS) (oldNum newNum : String) :
    Except PyError (RecordS × Option String) :=
  match r.phones with
  | [] => .ok (r, none)
  | p :: _ =>
    if p == oldNum then
      match Phone.construct (.str newNum) with
      | .error e => .error e
      | .ok stored =>
        match PhoneObj.getattrValue ⟨stored⟩ with
        | .error e => .error e
        | .ok v =>
          .ok ({ r with phones := setAdd r.phones v },
            some ("Phone number " ++ oldNum ++ " updated to " ++ newNum ++
              " for contact " ++ r.name.stored))
    else
      .ok (r, some ("Phone number " ++ oldNum ++ " not found for contact " ++
        r.name.stored))

/-- `Record.__str__` (lines 90-92). -/
def Record.render (r : RecordS) : String :=
  "Name: " ++ r.name.stored ++ "\nPhones:\n" ++ String.intercalate "," r.phones

/-- An `AddressBook`'s `data` dict: an insertion-ordered association
list with pairwise-distinct keys, as a Python dict. -/
abbrev Book := List (String × RecordS)

/-- `AddressBook.page_size` (line 130). -/
def page_size : Nat := 5

/-- Python dict assignment `data[k] = r`: overwrite in place, or append. -/
def dictSet (book : Book) (k : String) (r : RecordS) : Book :=
  if book.any (fun kv => kv.1 == k) then
    book.map (fun kv => if kv.1 == k then (k, r) else kv)
  else book ++ [(k, r)]

/-- `AddressBook.add_record` (lines 132-134): reads `record.name.value`
to form the key, then stores and returns the confirmation. -/
def AddressBook.add_record (book : Book) (r : RecordS) :
    Except PyError (Book × String) :=
  match NameObj.getattrValue r.name with
  | .error e => .error e
  | .ok k =>
    .ok (dictSet book k r,
      "Contact " ++ r.name.stored ++ " added to the address book!")

/-- `AddressBook.remove_record` (lines 136-140). -/
def AddressBook.remove_record (book : Book) (name : String) : Book × String :=
  if book.any (fun kv => kv.1 == name) then
    (book.filter (fun kv => kv.1 != name),
      "Contact " ++ name ++ " removed from the address book!")
  else
    (book, "Contact " ++ name ++ " not found in the address book!")

/-- The successive `page_records` slices produced by the `while` loop of
`AddressBook.show_all` (lines 150-157): `records[i:i+page_size]` with
`i` stepping by `page_size`. -/
def pagesOf (xs : List RecordS) : List (List RecordS) :=
  match xs with
  | [] => []
  | x :: rest => ((x :: rest).take page_size) :: pagesOf ((x :: rest).drop page_size)
termination_by xs.length
decreasing_by simp [page_size]; omega

/-- `AddressBook.show_all`: for each page slice, yield `str(record)` for
each of its records, over the values of the dict in insertion order. -/
def AddressBook.show_all (book : Book) : List String :=
  ((pagesOf (book.map Prod.snd)).map (fun page => page.map Record.render)).flatten

/-- A sample record used to instantiate the general theorems. -/
def demoRec (s : String) : RecordS := ⟨⟨s⟩, [], none⟩

/-- A seven-entry book used to instantiate the pagination theorem. -/
def demoBook : Book :=
  [("a", demoRec "a"), ("b", demoRec "b"), ("c", demoRec "c"),
   ("d", demoRec "d"), ("e", demoRec "e"), ("f", demoRec "f"),
   ("g", demoRec "g")]

/-- C1: on a record named Alice, `add_phone` with the valid digit string
"1234567" raises `AttributeError` at `self.phones.add(phone_number.value)`
(a `Phone` has no `value` attribute) instead of inserting the phone and
returning the confirmation; an invalid string such as "12a" does
propagate the validation failure from the `Phone` constructor, as the
claim states. -/
theorem add_phone_attributeError :
    Record.add_phone ⟨⟨"Alice"⟩, [], none⟩ "1234567" =
      .error .attributeError ∧
    Record.add_phone ⟨⟨"Alice"⟩, [], none⟩ "12a" = .error .valueError := by
  decide

/-- C2: on a record named Alice holding the phones "111" and "222",
`edit_phone("222", "333")` examines only the first stored phone - the
not-found return is inside the loop body - and reports "222" not found,
leaving the set unchanged, even though "222" is present. -/
theorem edit_phone_early_return :
    Record.edit_phone ⟨⟨"Alice"⟩, ["111", "222"], none⟩ "222" "333" =
      .ok (⟨⟨"Alice"⟩, ["111", "222"], none⟩,
        some "Phone number 222 not found for contact Alice") := by
  decide

/-- C3: `AddressBook.add_record` reads `record.name.value`, but `value`
is defined neither on `Name` nor on `Field` (which stores `_value`), so
every call raises `AttributeError` before storing anything; likewise
`Record.__init__` with an initial `Phone` raises `AttributeError` at
`phone.value`, so no record built from the `Field` classes is ever
inserted into the book. -/
theorem add_record_attributeError :
    (∀ (book : Book) (r : RecordS),
      AddressBook.add_record book r = .error .attributeError) ∧
    (∀ (today : DateS) (name : NameObj) (p : PhoneObj) (bd : Option DateS),
      Record.init today name (some p) bd = .error .attributeError) := by
  constructor
  · intro book r
    simp [AddressBook.add_record, NameObj.getattrValue, nameHasAttr,
      fieldInstanceAttrs, nameClassAttrs, fieldClassAttrs]
  · intro today name p bd
    simp [Record.init, PhoneObj.getattrValue, phoneHasAttr,
      fieldInstanceAttrs, phoneClassAttrs, fieldClassAttrs]

/-- C4 counterexample: the empty string consists of digit characters
only (it contains no non-digit character), yet `Phone("")` fails with
`ValueError`, because Python's `"".isdigit()` is false - so "succeeds
exactly on digit-only strings" is false at the input `""`. -/
theorem phone_empty_string_rejected :
    Phone.construct (PyVal.str "") = .error .valueError ∧
    "".toList.all Char.isDigit = true := by
  decide

/-- C4 amended: `Phone` construction succeeds exactly on the non-empty
digit-only strings - every string containing a non-digit character fails
with `ValueError`, and every non-empty all-digit string `s` succeeds
with `as_string` equal to `s`. -/
theorem phone_construct_spec (s : String) :
    (s.toList.any (fun c => !c.isDigit) = true →
      Phone.construct (PyVal.str s) = .error .valueError) ∧
    (s ≠ "" → s.toList.all Char.isDigit = true →
      Phone.construct (PyVal.str s) = .ok s ∧ Field.as_string s = s) := by
  constructor
  · intro h
    rcases List.any_eq_true.mp h with ⟨c, hc, hcd⟩
    simp at hcd
    simp [Phone.construct, Field.construct, strIsdigit]
    intro _
    exact ⟨c, hc, hcd⟩
  · intro hne hall
    have hdata : s.data ≠ [] := by
      intro hd
      exact hne (String.ext (hd.trans rfl))
    refine ⟨?_, rfl⟩
    cases hsd : s.data with
    | nil => exact absurd hsd hdata
    | cons c cs =>
      have hall2 : (c :: cs).all Char.isDigit = true := by
        rw [show s.toList = s.data from rfl, hsd] at hall
        exact hall
      simp [Phone.construct, Field.construct, strIsdigit, String.toList,
        hsd, hall2]

/-- C4 witness: the theorem applied at "12a" (fails) and "123"
(succeeds, round-trips). -/
theorem phone_construct_spec_w :
    Phone.construct (PyVal.str "12a") = .error .valueError ∧
    (Phone.construct (PyVal.str "123") = .ok "123" ∧
      Field.as_string "123" = "123") :=
  ⟨(phone_construct_spec "12a").1 (by decide),
   (phone_construct_spec "123").2 (by decide) (by decide)⟩

/-- C7 counterexample: `Name("")` succeeds - the claim says the empty
string is rejected with a validation error, but `Name` is
`class Name(Field): pass` and `Field.__init__` only checks that the
value is a string. -/
theorem name_accepts_empty : Name.construct (PyVal.str "") = .ok "" := by
  decide

/-- C7 amended: `Name` construction accepts exactly the strings - it
rejects non-string input with `ValueError` and succeeds on every string,
including the empty string, with no further constraint. -/
theorem name_construct_spec :
    (∀ s : String, Name.construct (PyVal.str s) = .ok s) ∧
    (∀ v : PyVal, v.isStr = false →
      Name.construct v = .error .valueError) := by
  constructor
  · intro s; rfl
  · intro v hv
    cases v with
    | str s => simp [PyVal.isStr] at hv
    | intv n => rfl
    | noneV => rfl

/-- C7 witness: the theorem applied at the string "bob" and at the
non-string integer 3. -/
theorem name_construct_spec_w :
    Name.construct (PyVal.str "bob") = .ok "bob" ∧
    Name.construct (PyVal.intv 3) = .error .valueError :=
  ⟨name_construct_spec.1 "bob", name_construct_spec.2 (PyVal.intv 3) rfl⟩

/-- C8 counterexample: a `Phone` constructed from the valid "123"
accepts `set_value("abc")` - `Phone` inherits `Field.set_value`, which
only re-checks string-ness - and thereby comes to hold the non-digit
string "abc", violating the claimed invariant. -/
theorem phone_set_value_skips_validation :
    Phone.construct (PyVal.str "123") = .ok "123" ∧
    Phone.set_value "123" (PyVal.str "abc") = ("abc", none) ∧
    strIsdigit "abc" = false := by
  decide

/-- C8 amended: `set_value` re-validates only the base `Field` rule
(the input must be a string), not the subtype rule: any string replaces
the stored value of a `Phone`, digits or not, while a failed `set_value`
(non-string input) raises `ValueError` and leaves the prior value
intact. -/
theorem phone_set_value_spec :
    (∀ (cur s : String), Phone.set_value cur (PyVal.str s) = (s, none)) ∧
    (∀ (cur : String) (v : PyVal), v.isStr = false →
      Phone.set_value cur v = (cur, some .valueError)) := by
  constructor
  · intro cur s; rfl
  · intro cur v hv
    cases v with
    | str s => simp [PyVal.isStr] at hv
    | intv n => rfl
    | noneV => rfl

/-- C8 witness: the theorem applied at stored value "123" with the
non-digit string "abc" and with the non-string `None`. -/
theorem phone_set_value_spec_w :
    Phone.set_value "123" (PyVal.str "abc") = ("abc", none) ∧
    Phone.set_value "123" PyVal.noneV = ("123", some .valueError) :=
  ⟨phone_set_value_spec.1 "123" "abc",
   phone_set_value_spec.2 "123" PyVal.noneV rfl⟩

/-- C9: `remove_record` on a name absent from the book returns the
not-found message and leaves the map - in particular its size -
unchanged. -/
theorem remove_record_absent (book : Book) (name : String)
    (h : ∀ kv ∈ book, kv.1 ≠ name) :
    AddressBook.remove_record book name =
      (book, "Contact " ++ name ++ " not found in the address book!") ∧
    (AddressBook.remove_record book name).1.length = book.length := by
  have hany : book.any (fun kv => kv.1 == name) = false := by
    apply Bool.eq_false_iff.mpr
    intro hc
    rcases List.any_eq_true.mp hc with ⟨kv, hkv, heq⟩
    exact h kv hkv (by simpa using heq)
  constructor
  · simp [AddressBook.remove_record, hany]
  · simp [AddressBook.remove_record, hany]

/-- C9 witness: the theorem applied to a one-entry book and the absent
name "zz". -/
theorem remove_record_absent_w :
    AddressBook.remove_record [("a", demoRec "a")] "zz" =
      ([("a", demoRec "a")],
        "Contact " ++ "zz" ++ " not found in the address book!") ∧
    (AddressBook.remove_record [("a", demoRec "a")] "zz").1.length =
      [("a", demoRec "a")].length :=
  remove_record_absent [("a", demoRec "a")] "zz" (by decide)

/-- C10: with the stored birthday 2024-02-29 and today 2024-03-01, the
rollover target `date(2025, 2, 29)` does not exist (2025 is not a leap
year) and the code raises an uncaught `ValueError` from the `date`
constructor; likewise for today 2025-01-15, where already
`date(2025, 2, 29)` fails - no clamping to Feb 28 and no documented
policy. -/
theorem days_to_birthday_feb29 :
    days_to_birthday ⟨2024, 3, 1⟩ (some ⟨2024, 2, 29⟩) =
      .error .valueError ∧
    days_to_birthday ⟨2025, 1, 15⟩ (some ⟨2024, 2, 29⟩) =
      .error .valueError := by
  decide

theorem monthLength_pos : ∀ (leap : Bool), ∀ m < 13, 1 ≤ m →
    1 ≤ monthLength leap m := by
  decide

theorem monthLength_le : ∀ (leap : Bool), ∀ m < 13,
    monthLength leap m ≤ 31 := by
  decide

theorem dayOfYear_le_366_aux : ∀ (leap : Bool), ∀ m < 13, ∀ d < 32,
    d ≤ monthLength leap m → dayOfYear leap m d ≤ 366 := by
  decide

theorem dayOfYear_le_366 (leap : Bool) (m d : Nat) (hm1 : 1 ≤ m)
    (hm2 : m ≤ 12) (hd2 : d ≤ monthLength leap m) :
    dayOfYear leap m d ≤ 366 := by
  have hml := monthLength_le leap m (by omega)
  exact dayOfYear_le_366_aux leap m (by omega) d (by omega) hd2

theorem dayOfYear_pos (leap : Bool) (m d : Nat) (hd : 1 ≤ d) :
    1 ≤ dayOfYear leap m d := by
  unfold dayOfYear
  split <;> omega

theorem dayOfYear_d_mono (leap : Bool) (m d1 d2 : Nat) (h : d1 ≤ d2) :
    dayOfYear leap m d1 ≤ dayOfYear leap m d2 := by
  unfold dayOfYear
  omega

theorem dayOfYear_step : ∀ (leap : Bool), ∀ m < 12, 1 ≤ m →
    dayOfYear leap m (monthLength leap m) + 1 ≤ dayOfYear leap (m + 1) 1 := by
  decide

theorem dayOfYear_month_mono (leap : Bool) (m1 : Nat) (h1 : 1 ≤ m1) :
    ∀ m2, m1 < m2 → m2 ≤ 12 →
      dayOfYear leap m1 (monthLength leap m1) + 1 ≤ dayOfYear leap m2 1 := by
  intro m2
  induction m2 with
  | zero => intro h _; omega
  | succ k ih =>
    intro hlt hle
    rcases Nat.lt_or_ge m1 k with hk | hk
    · have hik := ih hk (by omega)
      have hstep := dayOfYear_step leap k (by omega) (by omega)
      have hd := dayOfYear_d_mono leap k 1 (monthLength leap k)
        (monthLength_pos leap k (by omega) (by omega))
      omega
    · have hm : m1 = k := by omega
      subst hm
      exact dayOfYear_step leap m1 (by omega) h1

theorem dayOfYear_mono (leap : Bool) (m1 d1 m2 d2 : Nat)
    (hm11 : 1 ≤ m1) (hm12 : m1 ≤ 12) (hd11 : 1 ≤ d1)
    (hd12 : d1 ≤ monthLength leap m1)
    (hm21 : 1 ≤ m2) (hm22 : m2 ≤ 12) (hd21 : 1 ≤ d2)
    (hle : m1 < m2 ∨ (m1 = m2 ∧ d1 ≤ d2)) :
    dayOfYear leap m1 d1 ≤ dayOfYear leap m2 d2 := by
  rcases hle with hlt | ⟨heq, hdle⟩
  · have hc1 := dayOfYear_d_mono leap m1 d1 (monthLength leap m1) hd12
    have hc2 := dayOfYear_month_mono leap m1 hm11 m2 hlt hm22
    have hc3 := dayOfYear_d_mono leap m2 1 d2 hd21
    omega
  · subst heq
    exact dayOfYear_d_mono leap m1 d1 d2 hdle

theorem daysBeforeYear_succ (y : Nat) (hy : 1 ≤ y) :
    daysBeforeYear y + 365 ≤ daysBeforeYear (y + 1) := by
  unfold daysBeforeYear
  omega

theorem daysBeforeYear_step (y : Nat) :
    daysBeforeYear y ≤ daysBeforeYear (y + 1) := by
  cases y with
  | zero => decide
  | succ k =>
    have := daysBeforeYear_succ (k + 1) (by omega)
    omega

theorem daysBeforeYear_mono {y1 y2 : Nat} (h : y1 ≤ y2) :
    daysBeforeYear y1 ≤ daysBeforeYear y2 := by
  induction h with
  | refl => exact le_rfl
  | step h2 ih => exact le_trans ih (daysBeforeYear_step _)

theorem toordinal_mono (a b : DateS) (ha : a.validB = true)
    (hb : b.validB = true)
    (h : a.year < b.year ∨ (a.year = b.year ∧
      (a.month < b.month ∨ (a.month = b.month ∧ a.day ≤ b.day)))) :
    a.toordinal ≤ b.toordinal := by
  have ha' := of_decide_eq_true ha
  have hb' := of_decide_eq_true hb
  obtain ⟨ha1, ha2, ha3, ha4, ha5, ha6⟩ := ha'
  obtain ⟨hb1, hb2, hb3, hb4, hb5, hb6⟩ := hb'
  unfold DateS.toordinal
  rcases h with hy | ⟨hy, hmd⟩
  · have hc1 : dayOfYear (isLeapYear a.year) a.month a.day ≤ 366 :=
      dayOfYear_le_366 _ _ _ ha3 ha4 ha6
    have hc2 : 1 ≤ dayOfYear (isLeapYear b.year) b.month b.day :=
      dayOfYear_pos _ _ _ hb5
    have hc3 : daysBeforeYear a.year + 365 ≤ daysBeforeYear (a.year + 1) :=
      daysBeforeYear_succ _ ha1
    have hc4 : daysBeforeYear (a.year + 1) ≤ daysBeforeYear b.year :=
      daysBeforeYear_mono hy
    omega
  · rw [hy] at ha6 ⊢
    have hc := dayOfYear_mono (isLeapYear b.year) a.month a.day b.month b.day
      ha3 ha4 ha5 ha6 hb3 hb4 hb5 hmd
    omega

/-- C5: with the current date passed explicitly, `days_to_birthday`
returns `None` when no birthday is stored; otherwise, whenever the two
`date` constructions it may attempt are in range, it returns the
non-negative day difference between `date(today.year, b.month, b.day)` -
advanced to the following year when that date precedes today - and
today; in particular it yields 3 for today 2024-12-30 with birthday
month/day 01-02, 0 when the birthday's month/day equals today's, and 1
for one day after today. -/
theorem days_to_birthday_spec (today b : DateS)
    (hT : today.validB = true) (hB : b.validB = true)
    (h1 : DateS.validB ⟨today.year, b.month, b.day⟩ = true)
    (h2 : lexLt ⟨today.year, b.month, b.day⟩ today →
      DateS.validB ⟨today.year + 1, b.month, b.day⟩ = true) :
    days_to_birthday today none = .ok none ∧
    (∃ n : Int, days_to_birthday today (some b) = .ok (some n) ∧ 0 ≤ n ∧
      n = (if lexLt ⟨today.year, b.month, b.day⟩ today then
            (DateS.toordinal ⟨today.year + 1, b.month, b.day⟩ : Int)
          else (DateS.toordinal ⟨today.year, b.month, b.day⟩ : Int)) -
          (today.toordinal : Int)) ∧
    days_to_birthday ⟨2024, 12, 30⟩ (some ⟨2000, 1, 2⟩) = .ok (some 3) ∧
    days_to_birthday ⟨2024, 12, 30⟩ (some ⟨2000, 12, 30⟩) = .ok (some 0) ∧
    days_to_birthday ⟨2024, 12, 30⟩ (some ⟨2000, 12, 31⟩) = .ok (some 1) := by
  refine ⟨rfl, ?_, by decide, by decide, by decide⟩
  by_cases hw : lexLt ⟨today.year, b.month, b.day⟩ today
  · have h2' := h2 hw
    refine ⟨(DateS.toordinal ⟨today.year + 1, b.month, b.day⟩ : Int) -
      (today.toordinal : Int), ?_, ?_, ?_⟩
    · simp [days_to_birthday, dateMk, h1, DateS.lt, hw, h2']
    · have hmono : today.toordinal ≤
          DateS.toordinal ⟨today.year + 1, b.month, b.day⟩ :=
        toordinal_mono today ⟨today.year + 1, b.month, b.day⟩ hT h2'
          (Or.inl (show today.year < today.year + 1 by omega))
      omega
    · simp [hw]
  · refine ⟨(DateS.toordinal ⟨today.year, b.month, b.day⟩ : Int) -
      (today.toordinal : Int), ?_, ?_, ?_⟩
    · simp [days_to_birthday, dateMk, h1, DateS.lt, hw]
    · have hw' : ¬(b.month < today.month ∨
          (b.month = today.month ∧ b.day < today.day)) := by
        intro hc
        apply hw
        unfold lexLt
        right
        exact ⟨rfl, hc⟩
      have hmono : today.toordinal ≤
          DateS.toordinal ⟨today.year, b.month, b.day⟩ := by
        apply toordinal_mono today ⟨today.year, b.month, b.day⟩ hT h1
        refine Or.inr ⟨rfl, ?_⟩
        show today.month < b.month ∨ (today.month = b.month ∧ today.day ≤ b.day)
        omega
      omega
    · simp [hw]

/-- C5 witness: the theorem applied at today 2024-12-30 with the stored
birthday 2000-01-02. -/
theorem days_to_birthday_spec_w :
    days_to_birthday ⟨2024, 12, 30⟩ none = .ok none ∧
    (∃ n : Int,
      days_to_birthday ⟨2024, 12, 30⟩ (some ⟨2000, 1, 2⟩) = .ok (some n) ∧
      0 ≤ n ∧
      n = (if lexLt ⟨2024, 1, 2⟩ ⟨2024, 12, 30⟩ then
            (DateS.toordinal ⟨2024 + 1, 1, 2⟩ : Int)
          else (DateS.toordinal ⟨2024, 1, 2⟩ : Int)) -
          (DateS.toordinal ⟨2024, 12, 30⟩ : Int)) ∧
    days_to_birthday ⟨2024, 12, 30⟩ (some ⟨2000, 1, 2⟩) = .ok (some 3) ∧
    days_to_birthday ⟨2024, 12, 30⟩ (some ⟨2000, 12, 30⟩) = .ok (some 0) ∧
    days_to_birthday ⟨2024, 12, 30⟩ (some ⟨2000, 12, 31⟩) = .ok (some 1) :=
  days_to_birthday_spec ⟨2024, 12, 30⟩ ⟨2000, 1, 2⟩ (by decide) (by decide)
    (by decide) (fun _ => by decide)

theorem pagesOf_flatten (xs : List RecordS) : (pagesOf xs).flatten = xs := by
  induction xs using pagesOf.induct with
  | case1 => simp [pagesOf]
  | case2 x rest ih =>
    rw [pagesOf]
    simp only [List.flatten_cons, ih, List.take_append_drop]

theorem pagesOf_length (xs : List RecordS) :
    (pagesOf xs).length = (xs.length + page_size - 1) / page_size := by
  induction xs using pagesOf.induct with
  | case1 => simp [pagesOf, page_size]
  | case2 x rest ih =>
    rw [pagesOf]
    simp only [List.length_cons, ih, List.length_drop]
    simp only [page_size]
    omega

theorem pagesOf_ne_nil {xs : List RecordS} (h : pagesOf xs = []) : xs = [] := by
  cases xs with
  | nil => rfl
  | cons x rest => rw [pagesOf] at h; simp at h

theorem pagesOf_mem (xs : List RecordS) (p : List RecordS)
    (hp : p ∈ pagesOf xs) : p.length ≤ page_size ∧ p ≠ [] := by
  induction xs using pagesOf.induct with
  | case1 => simp [pagesOf] at hp
  | case2 x rest ih =>
    rw [pagesOf] at hp
    rcases List.mem_cons.mp hp with h | h
    · subst h
      constructor
      · simp [List.length_take]
      · simp [page_size]
    · exact ih h

theorem pagesOf_dropLast (xs : List RecordS) (p : List RecordS)
    (hp : p ∈ (pagesOf xs).dropLast) : p.length = page_size := by
  induction xs using pagesOf.induct with
  | case1 => simp [pagesOf] at hp
  | case2 x rest ih =>
    rw [pagesOf] at hp
    cases hrest : pagesOf ((x :: rest).drop page_size) with
    | nil => rw [hrest] at hp; simp at hp
    | cons q qs =>
      rw [hrest] at hp
      rcases List.mem_cons.mp (by simpa [List.dropLast] using hp) with h | h
      · subst h
        have hdrop : (x :: rest).drop page_size ≠ [] := by
          intro hd
          rw [hd] at hrest
          simp [pagesOf] at hrest
        have hlen : page_size < (x :: rest).length := by
          rcases Nat.lt_or_ge page_size ((x :: rest).length) with h5 | h5
          · exact h5
          · exact absurd (List.drop_eq_nil_of_le h5) hdrop
        simp only [List.length_take, List.length_cons] at hlen ⊢
        omega
      · apply ih
        rw [hrest]
        exact h

theorem flatten_map_map (f : RecordS → String) (l : List (List RecordS)) :
    (l.map (fun p => p.map f)).flatten = l.flatten.map f := by
  induction l with
  | nil => rfl
  | cons p l ih =>
    simp only [List.map_cons, List.flatten_cons, List.map_append, ih]

/-- C6: over a book of N records, `show_all` yields the rendered records
in insertion order, sliced into ceil(N/5) pages of the fixed
`page_size` 5, every page except possibly the last of size exactly 5 and
no page empty or oversized; the concatenation of the slices is the full
record list. -/
theorem show_all_spec (book : Book) :
    (pagesOf (book.map Prod.snd)).length =
      ((book.map Prod.snd).length + page_size - 1) / page_size ∧
    (∀ p ∈ (pagesOf (book.map Prod.snd)).dropLast, p.length = page_size) ∧
    (∀ p ∈ pagesOf (book.map Prod.snd), p.length ≤ page_size ∧ p ≠ []) ∧
    (pagesOf (book.map Prod.snd)).flatten = book.map Prod.snd ∧
    AddressBook.show_all book = (book.map Prod.snd).map Record.render := by
  refine ⟨pagesOf_length _, ?_, ?_, pagesOf_flatten _, ?_⟩
  · intro p hp
    exact pagesOf_dropLast _ p hp
  · intro p hp
    exact pagesOf_mem _ p hp
  · unfold AddressBook.show_all
    rw [flatten_map_map, pagesOf_flatten]

/-- C6 witness: the theorem applied to the seven-record `demoBook`,
whose first page has exactly `page_size` records and whose last page
holds the remaining two. -/
theorem show_all_spec_w :
    [demoRec "a", demoRec "b", demoRec "c", demoRec "d", demoRec "e"].length
      = page_size ∧
    ([demoRec "f", demoRec "g"].length ≤ page_size ∧
      ([demoRec "f", demoRec "g"] : List RecordS) ≠ []) :=
  ⟨(show_all_spec demoBook).2.1 _
      (by simp [demoBook, demoRec, pagesOf, page_size]),
   (show_all_spec demoBook).2.2.1 _
      (by simp [demoBook, demoRec, pagesOf, page_size])⟩

end DZ
